import Mathlib

/-!
Verification development for the flexmeasures-entsoe day-ahead import pipeline.

Shallow embedding of `flexmeasures_entsoe/generation/day_ahead.py`,
`flexmeasures_entsoe/prices/day_ahead.py` and `flexmeasures_entsoe/utils.py`.

Modelling conventions:
* Python floats are modelled as exact rationals (`ℚ`); the decimal literals in
  the source are taken at face value.
* A pandas `Series` of values on a shared, aligned index is modelled as
  `List ℚ` (values in event-time order); where the timestamps themselves
  matter (frequency inference, resampling, belief times) a series is
  `List (ℤ × ℚ)` with timestamps in minutes of the zone's local clock.
  All binary pandas operations in this pipeline act on series sharing one
  index, for which pandas index alignment is the identity, so they are
  modelled pointwise.
* Elementwise float division can produce IEEE special values; its result is
  modelled by `PdValue` (`0/0` is `nan`, `x/0` for `x ≠ 0` is a signed
  infinity, as in pandas).
* A pandas `DataFrame` of named, index-aligned columns is modelled as an
  association list from column name to value column (`GreenDF`); in-place
  column assignment becomes explicit state passing (the function returns the
  updated table).
* Fallible code returns `Option` or `Except`; a `raise` becomes an `error`
  value.
-/

/-- Result of one elementwise float division in pandas: a finite value, or
`NaN` (from `0/0`), or a signed infinity (from `x/0`, `x ≠ 0`). -/
inductive PdValue where
  | finite (q : ℚ)
  | nan
  | posInf
  | negInf
deriving DecidableEq, Repr

/-- Elementwise pandas division: `0/0` is NaN, `x/0` is a signed infinity,
otherwise exact division. -/
def pdDiv (n d : ℚ) : PdValue :=
  if d = 0 then (if n = 0 then PdValue.nan else if 0 < n then PdValue.posInf else PdValue.negInf)
  else PdValue.finite (n / d)

/-! Emission constants from `generation/day_ahead.py` (`grey_energy_mix` and
`kg_CO2_per_MWh`). -/

def grey_energy_mix_gas : ℚ := 0.598
def grey_energy_mix_oil : ℚ := 0.045
def grey_energy_mix_coal : ℚ := 0.0718

def kg_CO2_per_MWh_coal : ℚ := 870
def kg_CO2_per_MWh_gas : ℚ := 464
def kg_CO2_per_MWh_solar : ℚ := 44.5
def kg_CO2_per_MWh_oil : ℚ := 652
def kg_CO2_per_MWh_wind_onshore : ℚ := 14
def kg_CO2_per_MWh_wind_offshore : ℚ := 17

/-- Constant grey intensity factor computed at the top of
`calculate_CO2_content_in_kg`:
`coal_share * coal + gas_share * gas + oil_share * oil`. -/
def grey_CO2_intensity_factor : ℚ :=
  grey_energy_mix_coal * kg_CO2_per_MWh_coal
    + grey_energy_mix_gas * kg_CO2_per_MWh_gas
    + grey_energy_mix_oil * kg_CO2_per_MWh_oil

/-! A pandas DataFrame of index-aligned columns, as an association list from
column name to column values. -/

abbrev GreenDF := List (String × List ℚ)

/-- Column read `df[name]`; `none` models the `KeyError` a missing column
raises. -/
def getCol : GreenDF → String → Option (List ℚ)
  | [], _ => none
  | c :: rest, n => if c.1 = n then some c.2 else getCol rest n

/-- Column write `df[name] = values`: replace the column if present, else
append it on the right, as pandas does. -/
def setCol : GreenDF → String → List ℚ → GreenDF
  | [], n, v => [(n, v)]
  | c :: rest, n, v => if c.1 = n then (n, v) :: rest else c :: setCol rest n v

/-- Row-wise sum `df.sum(axis="columns")` over index-aligned columns. -/
def sumColumns : GreenDF → List ℚ
  | [] => []
  | c :: rest => if rest.isEmpty then c.2 else List.zipWith (· + ·) c.2 (sumColumns rest)

/-- pandas `df.empty`: true when the frame has no columns or no rows. -/
def dfEmpty (df : GreenDF) : Bool :=
  df.isEmpty || df.all (fun c => c.2.isEmpty)

/-- Scaling every column of a table by `k` (used to state scale invariance). -/
def scaleDF (k : ℚ) (df : GreenDF) : GreenDF :=
  df.map (fun c => (c.1, c.2.map (fun x => k * x)))

/-- Embedding of `calculate_CO2_content_in_kg(grey_generation, green_generation)`.
Grey CO₂ content is `grey_generation * grey_CO2_intensity_factor`; then three
CO₂ columns are assigned into the green table, in source order (the solar
coefficient is divided by 1000); the result re-reads those columns and sums
them with the grey content. The updated table is returned to model the
in-place mutation of the caller's DataFrame. -/
def calculate_CO2_content_in_kg (grey_generation : List ℚ) (green_generation : GreenDF) :
    Option (List ℚ × GreenDF) :=
  let grey_CO2_content := grey_generation.map (fun x => x * grey_CO2_intensity_factor)
  match getCol green_generation "Solar" with
  | none => none
  | some solar =>
    let g1 := setCol green_generation "solar CO₂"
      (solar.map (fun x => x * kg_CO2_per_MWh_solar / 1000))
    match getCol g1 "Wind Onshore" with
    | none => none
    | some wind_onshore =>
      let g2 := setCol g1 "wind_onshore CO₂"
        (wind_onshore.map (fun x => x * kg_CO2_per_MWh_wind_onshore))
      match getCol g2 "Wind Offshore" with
      | none => none
      | some wind_offshore =>
        let g3 := setCol g2 "wind_offshore CO₂"
          (wind_offshore.map (fun x => x * kg_CO2_per_MWh_wind_offshore))
        match getCol g3 "solar CO₂", getCol g3 "wind_onshore CO₂", getCol g3 "wind_offshore CO₂" with
        | some sCO2, some onCO2, some offCO2 =>
          some (List.zipWith (· + ·)
                  (List.zipWith (· + ·)
                    (List.zipWith (· + ·) grey_CO2_content sCO2) onCO2) offCO2,
                g3)
        | _, _, _ => none

/-- Embedding of the derived-series step of `import_day_ahead_generation`
(lines 139-147): `all_green_generation = green_generation_df.sum(axis="columns")`
(computed before the CO₂ columns are added), `all_generation = scheduled +
all_green`, `co2_in_kg = calculate_CO2_content_in_kg(...)`, and the final
elementwise division. Returns the intensity series together with the mutated
green table. -/
def day_ahead_CO2_intensity (scheduled_generation : List ℚ) (green_generation_df : GreenDF) :
    Option (List PdValue × GreenDF) :=
  let all_green_generation := sumColumns green_generation_df
  let all_generation := List.zipWith (· + ·) scheduled_generation all_green_generation
  match calculate_CO2_content_in_kg scheduled_generation green_generation_df with
  | none => none
  | some (co2_in_kg, green') =>
      some (List.zipWith pdDiv co2_in_kg all_generation, green')

/-- Carbon-intensity series computed by the import from the scheduled series
and the renewable table (`forecasted_kg_CO2_per_MWh = co2_in_kg / all_generation`). -/
def forecasted_kg_CO2_per_MWh (scheduled_generation : List ℚ) (green_generation_df : GreenDF) :
    Option (List PdValue) :=
  (day_ahead_CO2_intensity scheduled_generation green_generation_df).map Prod.fst

/-! Resolution normalizer (`resample_if_needed` in `utils.py`). Timestamps are
minutes of the zone's local clock; resolutions are in minutes. -/

/-- The single fatal outcome of the normalizer: the `ValueError` raised when
no uniform frequency can be inferred (either by `pd.infer_freq` itself, which
raises for fewer than three timestamps, or by the explicit
`raise ValueError("Data has no discernible frequency ...")` when inference
returns `None`). The spec's taxonomy calls this condition `ResolutionError`. -/
inductive ResolutionError where
  | noDiscernibleFrequency
deriving DecidableEq, Repr

/-- Check that consecutive timestamps, starting from `prev`, are all spaced
exactly `d` apart. -/
def uniformSpacing (d : ℤ) : ℤ → List ℤ → Bool
  | _, [] => true
  | prev, t :: rest => decide (t - prev = d) && uniformSpacing d t rest

/-- Embedding of `pd.infer_freq` on a timestamp index: with fewer than three
timestamps pandas raises (`Need at least 3 dates to infer frequency`), and
with three or more it yields the common positive spacing, or `None` when the
spacing is irregular. Both failure modes are `none` here, since
`resample_if_needed` turns both into the same fatal error. -/
def inferFreq : List ℤ → Option ℤ
  | t₀ :: t₁ :: t₂ :: rest =>
    let d := t₁ - t₀
    if 0 < d ∧ uniformSpacing d t₁ (t₂ :: rest) = true then some d else none
  | _ => none

/-- Left-closed grid `pd.date_range(start, stop, freq=step, closed="left")`:
all points `start + k * step` with `k ≥ 0` that are strictly before `stop`. -/
def dateRangeLeft (start stop step : ℤ) : List ℤ :=
  (List.range ((stop - start + step - 1).fdiv step).toNat).map (fun k => start + k * step)

/-- Value a reindex-then-pad (`s.reindex(index).pad()`) places at grid slot
`t`: the value of the last source timestamp at or before `t`. A slot before
the first source timestamp would remain NaN; the grid built by the upsampling
branch starts at the first source timestamp, so the fallback is never hit. -/
def padValue (s : List (ℤ × ℚ)) (t : ℤ) : ℚ :=
  ((s.filter (fun q => q.1 ≤ t)).getLast?).elim 0 Prod.snd

/-- Downsampling branch `s.resample(target).mean()`: bucket timestamps into
left-closed bins of width `target` anchored at multiples of `target`
(matching pandas' start-of-day origin for resolutions dividing one day) and
take the arithmetic mean of each bin between the first and last timestamp.
In the only reachable case (uniform spacing finer than `target`) every such
bin is nonempty. -/
def downsampleMean (s : List (ℤ × ℚ)) (target : ℤ) : List (ℤ × ℚ) :=
  match s with
  | [] => []
  | p :: rest =>
    let first := p.1
    let last := ((rest.getLast?).getD p).1
    let b₀ := target * first.fdiv target
    let bN := target * last.fdiv target
    let n := ((bN - b₀).fdiv target).toNat + 1
    (List.range n).map (fun k =>
      let b := b₀ + k * target
      let vals := (s.filter (fun q => b ≤ q.1 ∧ q.1 < b + target)).map Prod.snd
      (b, vals.sum / vals.length))

/-- Embedding of `resample_if_needed(s, sensor)` from `utils.py`: infer the
source frequency (fatal error when impossible); return the series unchanged
when it matches the target; forward-fill onto a left-closed grid
`[first, last + inferred_resolution)` at the target resolution when the
source is coarser; aggregate by mean when the source is finer. -/
def resample_if_needed (s : List (ℤ × ℚ)) (target_resolution : ℤ) :
    Except ResolutionError (List (ℤ × ℚ)) :=
  match inferFreq (s.map Prod.fst) with
  | none => Except.error ResolutionError.noDiscernibleFrequency
  | some inferred_resolution =>
    if inferred_resolution = target_resolution then Except.ok s
    else if target_resolution < inferred_resolution then
      match s with
      | [] => Except.ok []
      | p :: rest =>
        let last := ((rest.getLast?).getD p).1
        let index := dateRangeLeft p.1 (last + inferred_resolution) target_resolution
        Except.ok (index.map (fun t => (t, padValue (p :: rest) t)))
    else Except.ok (downsampleMean s target_resolution)

/-! Belief-time computation in `save_entsoe_series` (`utils.py`). -/

/-- pandas `index.floor("D")` on a tz-aware index: floor to local midnight.
Timestamps are minutes of the zone's local clock, so one day is 1440. -/
def floorDay (t : ℤ) : ℤ := 1440 * t.fdiv 1440

/-- pandas `clip(upper=u)` applied to one value. -/
def clipUpper (upper x : ℤ) : ℤ := if upper < x then upper else x

/-- Belief times computed by `save_entsoe_series`:
`(series.index.floor("D") - pd.Timedelta("6h")).clip(upper=now)`, one
belief time per event timestamp (6 hours is 360 minutes). -/
def belief_times (index : List ℤ) (now : ℤ) : List ℤ :=
  index.map (fun t => clipUpper now (floorDay t - 360))

/-! Configuration reading and the global server URL
(`get_auth_token_from_config_and_set_server_url` in `utils.py`). -/

/-- The `click.Abort` raised on a missing auth token. -/
inductive ClickAbort where
  | abort
deriving DecidableEq, Repr

/-- The configuration options this function reads. A missing entry is `none`;
Python's falsiness check `not auth_token` also treats the empty string as
missing. -/
structure EntsoeConfig where
  use_test_server : Bool
  auth_token : Option String
  auth_token_test_server : Option String
deriving DecidableEq, Repr

def ENTSOE_PRODUCTION_URL : String := "https://web-api.tp.entsoe.eu/api"
def ENTSOE_TEST_SERVER_URL : String := "https://iop-transparency.entsoe.eu/api"

/-- Embedding of `get_auth_token_from_config_and_set_server_url`. The global
`entsoe.entsoe.URL` becomes explicit state: the function takes the current
URL and returns the token (or the abort raised when the token is missing)
together with the URL after the call. In the source the URL assignment
happens in both branches before the token is validated. -/
def get_auth_token_from_config_and_set_server_url (cfg : EntsoeConfig) (url₀ : String) :
    Except ClickAbort String × String :=
  let _ := url₀
  if cfg.use_test_server then
    let url := ENTSOE_TEST_SERVER_URL
    match cfg.auth_token_test_server with
    | none => (Except.error ClickAbort.abort, url)
    | some tok => if tok = "" then (Except.error ClickAbort.abort, url) else (Except.ok tok, url)
  else
    let url := ENTSOE_PRODUCTION_URL
    match cfg.auth_token with
    | none => (Except.error ClickAbort.abort, url)
    | some tok => if tok = "" then (Except.error ClickAbort.abort, url) else (Except.ok tok, url)

/-! Import orchestrator (`import_day_ahead_generation` in
`generation/day_ahead.py`). The fetched upstream data is passed in as input;
the calls made to the belief store (`save_entsoe_series`) are collected as an
explicit list, and the stages the run executed are recorded. -/

/-- Sensor specification tuples from `generation/__init__.py`
(`sensor_name, unit, event_resolution` in minutes, `data_by_entsoe`). -/
structure SensorSpec where
  name : String
  unit : String
  event_resolution : ℤ
  data_by_entsoe : Bool
deriving DecidableEq, Repr

def generation_sensors : List SensorSpec :=
  [⟨"Scheduled generation", "MW", 15, true⟩,
   ⟨"Solar", "MW", 60, true⟩,
   ⟨"Wind Onshore", "MW", 60, true⟩,
   ⟨"Wind Offshore", "MW", 60, true⟩,
   ⟨"CO₂ intensity", "kg/MWh", 15, false⟩]

/-- A series routed to a sensor: either a plain value series or the derived
intensity series (which may hold IEEE special values). -/
inductive SeriesValue where
  | qs (values : List ℚ)
  | pdf (values : List PdValue)
deriving DecidableEq, Repr

/-- Fatal conditions that abort an import run: empty upstream data
(`abort_if_data_empty`), no inferable resolution (`resample_if_needed`), a
missing DataFrame column (`KeyError`), or an unmapped sensor name
(`click.Abort` in `get_series_for_sensor`). -/
inductive ImportAbort where
  | emptyResult
  | resolutionError
  | keyError
  | mappingError
deriving DecidableEq, Repr

/-- Pipeline stages of one import invocation, in the order the orchestrator
may execute them. -/
inductive Stage where
  | fetchScheduled
  | validateScheduled
  | normalize
  | fetchGreen
  | validateGreen
  | derive
  | route
  | persist
deriving DecidableEq, Repr

/-- Embedding of `abort_if_data_empty(data)` in `utils.py`: raise
`click.Abort` when the fetched data is empty. -/
def abort_if_data_empty (is_empty : Bool) : Except ImportAbort Unit :=
  if is_empty then Except.error ImportAbort.emptyResult else Except.ok ()

/-- Embedding of the name-keyed dispatch `get_series_for_sensor(sensor)`
closed over the computed series. `none` models both the `click.Abort` raised
for an unknown sensor name and the `KeyError` a missing green column would
raise. -/
def get_series_for_sensor (sensor_name : String) (scheduled_generation : List ℚ)
    (green_generation_df : GreenDF) (intensity : List PdValue) : Option SeriesValue :=
  if sensor_name = "Scheduled generation" then some (SeriesValue.qs scheduled_generation)
  else if sensor_name = "Solar" then (getCol green_generation_df "Solar").map SeriesValue.qs
  else if sensor_name = "Wind Onshore" then
    (getCol green_generation_df "Wind Onshore").map SeriesValue.qs
  else if sensor_name = "Wind Offshore" then
    (getCol green_generation_df "Wind Offshore").map SeriesValue.qs
  else if sensor_name = "CO₂ intensity" then some (SeriesValue.pdf intensity)
  else none

/-- The `for sensor in sensors.values():` loop: route each sensor to its
series, then call `save_entsoe_series` for it. Returns the save calls made,
in order, and the outcome (an unmapped sensor aborts the loop after the
earlier saves have already happened). -/
def routeAndSave (scheduled_generation : List ℚ) (green_generation_df : GreenDF)
    (intensity : List PdValue) :
    List SensorSpec → List (String × SeriesValue) × Except ImportAbort Unit
  | [] => ([], Except.ok ())
  | sensor :: rest =>
    match get_series_for_sensor sensor.name scheduled_generation green_generation_df intensity with
    | none => ([], Except.error ImportAbort.mappingError)
    | some series =>
      let out := routeAndSave scheduled_generation green_generation_df intensity rest
      ((sensor.name, series) :: out.1, out.2)

/-- One import run's observable outcome: the stages that executed, the calls
made to the belief store, and the final result. -/
structure ImportOutcome where
  stages : List Stage
  saves : List (String × SeriesValue)
  result : Except ImportAbort Unit
deriving Repr

/-- Embedding of the body of `import_day_ahead_generation` from the point the
upstream data is fetched: validate the scheduled series is nonempty, resample
it to the `Scheduled generation` sensor's resolution, validate the green
table is nonempty, compute the derived CO₂ intensity, and - unless `dryrun`
is set - route every sensor to its series and save it. The `if not dryrun:`
in the source guards the whole routing-and-saving loop. -/
def import_day_ahead_generation (dryrun : Bool) (scheduled_generation : List (ℤ × ℚ))
    (green_generation_df : GreenDF) : ImportOutcome :=
  match abort_if_data_empty scheduled_generation.isEmpty with
  | Except.error e => ⟨[Stage.fetchScheduled, Stage.validateScheduled], [], Except.error e⟩
  | Except.ok _ =>
    match resample_if_needed scheduled_generation 15 with
    | Except.error _ =>
      ⟨[Stage.fetchScheduled, Stage.validateScheduled, Stage.normalize], [],
       Except.error ImportAbort.resolutionError⟩
    | Except.ok scheduled' =>
      match abort_if_data_empty (dfEmpty green_generation_df) with
      | Except.error e =>
        ⟨[Stage.fetchScheduled, Stage.validateScheduled, Stage.normalize, Stage.fetchGreen,
          Stage.validateGreen], [], Except.error e⟩
      | Except.ok _ =>
        let scheduled_values := scheduled'.map Prod.snd
        match day_ahead_CO2_intensity scheduled_values green_generation_df with
        | none =>
          ⟨[Stage.fetchScheduled, Stage.validateScheduled, Stage.normalize, Stage.fetchGreen,
            Stage.validateGreen, Stage.derive], [], Except.error ImportAbort.keyError⟩
        | some (intensity, green') =>
          if dryrun then
            ⟨[Stage.fetchScheduled, Stage.validateScheduled, Stage.normalize, Stage.fetchGreen,
              Stage.validateGreen, Stage.derive], [], Except.ok ()⟩
          else
            let out := routeAndSave scheduled_values green' intensity generation_sensors
            ⟨[Stage.fetchScheduled, Stage.validateScheduled, Stage.normalize, Stage.fetchGreen,
              Stage.validateGreen, Stage.derive, Stage.route, Stage.persist], out.1, out.2⟩

/-- Layout of the table returned by `client.query_wind_and_solar_forecast`:
three columns named `Solar`, `Wind Onshore` and `Wind Offshore`. -/
def wind_and_solar_forecast (solar wind_onshore wind_offshore : List ℚ) : GreenDF :=
  [("Solar", solar), ("Wind Onshore", wind_onshore), ("Wind Offshore", wind_offshore)]

/-- A sample nonempty scheduled-generation series at the sensor's 15-minute
resolution (three points, so a frequency is inferable). -/
def sched3 : List (ℤ × ℚ) := [(0, 1), (15, 1), (30, 1)]

/-! Helper lemmas about the embedding. -/

theorem scaleDF_nil (k : ℚ) : scaleDF k [] = [] := rfl

theorem scaleDF_cons (k : ℚ) (c : String × List ℚ) (rest : GreenDF) :
    scaleDF k (c :: rest) = (c.1, c.2.map (fun x => k * x)) :: scaleDF k rest := rfl

theorem getCol_cons (m : String) (v : List ℚ) (rest : GreenDF) (n : String) :
    getCol ((m, v) :: rest) n = if m = n then some v else getCol rest n := rfl

theorem setCol_cons (m : String) (v : List ℚ) (rest : GreenDF) (n : String) (w : List ℚ) :
    setCol ((m, v) :: rest) n w = if m = n then (n, w) :: rest else (m, v) :: setCol rest n w := rfl

theorem getCol_scaleDF (k : ℚ) (df : GreenDF) (n : String) :
    getCol (scaleDF k df) n = (getCol df n).map (List.map (fun x => k * x)) := by
  induction df with
  | nil => rfl
  | cons c rest ih =>
    rcases c with ⟨m, v⟩
    have h1 : scaleDF k ((m, v) :: rest) = (m, v.map (fun x => k * x)) :: scaleDF k rest := rfl
    rw [h1]
    by_cases h : m = n <;> simp [getCol_cons, h, ih]

theorem setCol_scaleDF (k : ℚ) (df : GreenDF) (n : String) (v : List ℚ) :
    setCol (scaleDF k df) n (v.map (fun x => k * x)) = scaleDF k (setCol df n v) := by
  induction df with
  | nil => rfl
  | cons c rest ih =>
    rcases c with ⟨m, w⟩
    have h1 : scaleDF k ((m, w) :: rest) = (m, w.map (fun x => k * x)) :: scaleDF k rest := rfl
    rw [h1]
    by_cases h : m = n
    · subst h
      rw [setCol_cons, if_pos rfl, setCol_cons, if_pos rfl]
      rfl
    · rw [setCol_cons, if_neg h, ih, setCol_cons, if_neg h]
      rfl

theorem zipWith_add_map_mul (k : ℚ) (a b : List ℚ) :
    List.zipWith (· + ·) (a.map (fun x => k * x)) (b.map (fun x => k * x))
      = (List.zipWith (· + ·) a b).map (fun x => k * x) := by
  induction a generalizing b with
  | nil => simp
  | cons x xs ih => cases b <;> simp [ih, mul_add]

theorem sumColumns_scaleDF (k : ℚ) (df : GreenDF) :
    sumColumns (scaleDF k df) = (sumColumns df).map (fun x => k * x) := by
  induction df with
  | nil => rfl
  | cons c rest ih =>
    cases rest with
    | nil => simp [scaleDF_cons, sumColumns]
    | cons d ds =>
      rw [scaleDF_cons]
      rw [show sumColumns ((c.1, c.2.map (fun x => k * x)) :: scaleDF k (d :: ds))
            = List.zipWith (· + ·) (c.2.map (fun x => k * x)) (sumColumns (scaleDF k (d :: ds))) by
          simp [sumColumns, scaleDF_cons]]
      rw [show sumColumns (c :: d :: ds) = List.zipWith (· + ·) c.2 (sumColumns (d :: ds)) by
          simp [sumColumns]]
      rw [ih, zipWith_add_map_mul]

theorem map_mul_coeff_comm (k c : ℚ) (v : List ℚ) :
    (v.map (fun x => k * x)).map (fun x => x * c) = (v.map (fun x => x * c)).map (fun x => k * x) := by
  simp only [List.map_map]
  congr 1
  funext x
  simp [Function.comp]
  ring

theorem map_mul_coeff_div_comm (k c d : ℚ) (v : List ℚ) :
    (v.map (fun x => k * x)).map (fun x => x * c / d)
      = (v.map (fun x => x * c / d)).map (fun x => k * x) := by
  simp only [List.map_map]
  congr 1
  funext x
  simp [Function.comp]
  ring

theorem pdDiv_mul_left (k n d : ℚ) (hk : 0 < k) : pdDiv (k * n) (k * d) = pdDiv n d := by
  have hk0 : k ≠ 0 := ne_of_gt hk
  by_cases hd : d = 0
  · subst hd
    by_cases hn : n = 0
    · subst hn; simp [pdDiv]
    · have hkn : k * n ≠ 0 := mul_ne_zero hk0 hn
      have hpos : (0 < k * n) ↔ (0 < n) := by constructor <;> intro h <;> nlinarith
      rw [mul_zero]
      unfold pdDiv
      rw [if_pos rfl, if_pos rfl, if_neg hkn, if_neg hn]
      by_cases hp : 0 < n
      · rw [if_pos (hpos.mpr hp), if_pos hp]
      · rw [if_neg (fun h => hp (hpos.mp h)), if_neg hp]
  · have hkd : k * d ≠ 0 := mul_ne_zero hk0 hd
    unfold pdDiv
    rw [if_neg hkd, if_neg hd, mul_div_mul_left n d hk0]

theorem zipWith_pdDiv_map_mul (k : ℚ) (hk : 0 < k) (a b : List ℚ) :
    List.zipWith pdDiv (a.map (fun x => k * x)) (b.map (fun x => k * x))
      = List.zipWith pdDiv a b := by
  induction a generalizing b with
  | nil => simp
  | cons x xs ih => cases b <;> simp [ih, pdDiv_mul_left _ _ _ hk]

theorem sumColumns_threeCol (a b c : List ℚ) :
    sumColumns (wind_and_solar_forecast a b c) = List.zipWith (· + ·) a (List.zipWith (· + ·) b c) := rfl

theorem calculate_CO2_threeCol (G s w1 w2 : List ℚ) :
    calculate_CO2_content_in_kg G (wind_and_solar_forecast s w1 w2)
      = some
          (List.zipWith (· + ·)
            (List.zipWith (· + ·)
              (List.zipWith (· + ·)
                (G.map (fun x => x * grey_CO2_intensity_factor))
                (s.map (fun x => x * kg_CO2_per_MWh_solar / 1000)))
              (w1.map (fun x => x * kg_CO2_per_MWh_wind_onshore)))
            (w2.map (fun x => x * kg_CO2_per_MWh_wind_offshore)),
          [("Solar", s), ("Wind Onshore", w1), ("Wind Offshore", w2),
           ("solar CO₂", s.map (fun x => x * kg_CO2_per_MWh_solar / 1000)),
           ("wind_onshore CO₂", w1.map (fun x => x * kg_CO2_per_MWh_wind_onshore)),
           ("wind_offshore CO₂", w2.map (fun x => x * kg_CO2_per_MWh_wind_offshore))]) := rfl

theorem clipUpper_eq_min (u x : ℤ) : clipUpper u x = min x u := by
  unfold clipUpper
  rcases le_or_lt x u with h | h
  · rw [if_neg (not_lt.mpr h), min_eq_left h]
  · rw [if_pos h, min_eq_right h.le]

/-! Claim theorems. -/

/-- Claim C1, counterexample: with both renewable columns zero and scheduled
generation [100, 200] MW hourly, the computed carbon-intensity series is the
constant 184639/500 = 369.278 kg/MWh at both timestamps; the value 384.4
asserted by the claim is 15.1 kg/MWh away, so the series does not equal
≈ 384.4. -/
theorem C1_counterexample :
    forecasted_kg_CO2_per_MWh [100, 200] (wind_and_solar_forecast [0, 0] [0, 0] [0, 0])
      = some [PdValue.finite (184639 / 500), PdValue.finite (184639 / 500)]
    ∧ (3844 / 10 - 184639 / 500 : ℚ) = 7561 / 500 := by
  constructor
  · unfold forecasted_kg_CO2_per_MWh day_ahead_CO2_intensity
    rw [calculate_CO2_threeCol]
    norm_num [wind_and_solar_forecast, sumColumns, List.zipWith, pdDiv,
      grey_CO2_intensity_factor, grey_energy_mix_coal, grey_energy_mix_gas,
      grey_energy_mix_oil, kg_CO2_per_MWh_coal, kg_CO2_per_MWh_gas, kg_CO2_per_MWh_oil,
      kg_CO2_per_MWh_solar, kg_CO2_per_MWh_wind_onshore, kg_CO2_per_MWh_wind_offshore]
  · norm_num

/-- Claim C1, amended: when every renewable generation value is zero and the
scheduled series is [100, 200] MW hourly, the computed carbon-intensity
series equals the constant grey intensity factor
870 × 0.0718 + 464 × 0.598 + 652 × 0.045 = 369.278 kg/MWh at both
timestamps. -/
theorem C1_amended_grey_factor :
    forecasted_kg_CO2_per_MWh [100, 200] (wind_and_solar_forecast [0, 0] [0, 0] [0, 0])
      = some [PdValue.finite grey_CO2_intensity_factor, PdValue.finite grey_CO2_intensity_factor]
    ∧ grey_CO2_intensity_factor = 369278 / 1000 := by
  have hfac : grey_CO2_intensity_factor = 369278 / 1000 := by
    norm_num [grey_CO2_intensity_factor, grey_energy_mix_coal, grey_energy_mix_gas,
      grey_energy_mix_oil, kg_CO2_per_MWh_coal, kg_CO2_per_MWh_gas, kg_CO2_per_MWh_oil]
  refine ⟨?_, hfac⟩
  unfold forecasted_kg_CO2_per_MWh day_ahead_CO2_intensity
  rw [calculate_CO2_threeCol]
  norm_num [wind_and_solar_forecast, sumColumns, List.zipWith, pdDiv, hfac,
    kg_CO2_per_MWh_solar, kg_CO2_per_MWh_wind_onshore, kg_CO2_per_MWh_wind_offshore]

/-- Claim C2 (confirmed): for every event timestamp and import-time clock
value `now`, the computed belief time equals the minimum of (timestamp
floored to its calendar day minus 6 hours) and `now`; in particular every
belief time is at most `now`. -/
theorem C2_belief_time_min_and_clip (index : List ℤ) (now : ℤ) :
    belief_times index now = index.map (fun t => min (floorDay t - 360) now)
    ∧ ∀ b ∈ belief_times index now, b ≤ now := by
  constructor
  · unfold belief_times
    simp only [clipUpper_eq_min]
  · intro b hb
    unfold belief_times at hb
    obtain ⟨t, _, rfl⟩ := List.mem_map.1 hb
    rw [clipUpper_eq_min]
    exact min_le_right _ _

/-- Claim C4, counterexample: normalizing the uniform two-point 4-hour
series [10, 20] to 1-hour resolution fails with the resolution error
(frequency inference needs at least three timestamps) instead of returning
the forward-filled eight-point series the claim describes. -/
theorem C4_counterexample :
    resample_if_needed [((0 : ℤ), (10 : ℚ)), (240, 20)] 60
        = Except.error ResolutionError.noDiscernibleFrequency
    ∧ resample_if_needed [((0 : ℤ), (10 : ℚ)), (240, 20)] 60
        ≠ Except.ok [(0, 10), (60, 10), (120, 10), (180, 10),
                     (240, 20), (300, 20), (360, 20), (420, 20)] :=
  ⟨rfl, fun h => nomatch h⟩

/-- Claim C4, amended: a two-point 4-hour series [10, 20] fails with a
resolution error, because frequency inference needs at least three
timestamps; with a third point (values [10, 20, 30]) the upsampling to
1-hour resolution forward-fills onto the left-closed index
[first, last + 4h), giving each value four times. -/
theorem C4_amended_upsample :
    resample_if_needed [((0 : ℤ), (10 : ℚ)), (240, 20)] 60
        = Except.error ResolutionError.noDiscernibleFrequency
    ∧ resample_if_needed [((0 : ℤ), (10 : ℚ)), (240, 20), (480, 30)] 60
        = Except.ok [(0, 10), (60, 10), (120, 10), (180, 10),
                     (240, 20), (300, 20), (360, 20), (420, 20),
                     (480, 30), (540, 30), (600, 30), (660, 30)] :=
  ⟨rfl, rfl⟩

/-- Claim C5 (confirmed): for every input series whose timestamp index has
no inferable uniform frequency - in particular every series of length 1 -
the normalizer fails with the resolution error instead of returning a
series. -/
theorem C5_unresolvable_frequency_errors (s : List (ℤ × ℚ)) (target_resolution : ℤ)
    (h : s.length = 1 ∨ inferFreq (s.map Prod.fst) = none) :
    resample_if_needed s target_resolution = Except.error ResolutionError.noDiscernibleFrequency := by
  have hnone : inferFreq (s.map Prod.fst) = none := by
    rcases h with h | h
    · rcases s with _ | ⟨p, _ | ⟨q, rest⟩⟩
      · simp at h
      · rfl
      · simp at h
    · exact h
  unfold resample_if_needed
  rw [hnone]

/-- Claim C5, witness: the length-1 series [(0, 5)] has no inferable
frequency and the normalizer rejects it. -/
theorem C5_witness :
    (([((0 : ℤ), (5 : ℚ))] : List (ℤ × ℚ)).length = 1
      ∨ inferFreq (([((0 : ℤ), (5 : ℚ))] : List (ℤ × ℚ)).map Prod.fst) = none)
    ∧ resample_if_needed [((0 : ℤ), (5 : ℚ))] 60
        = Except.error ResolutionError.noDiscernibleFrequency :=
  ⟨Or.inl rfl, C5_unresolvable_frequency_errors [((0 : ℤ), (5 : ℚ))] 60 (Or.inl rfl)⟩

/-- Claim C9 (confirmed): calculate_CO2_content_in_kg mutates the green
table it is given: afterwards the caller's table holds the three new CO₂
columns, its original Solar, Wind Onshore and Wind Offshore columns are
unchanged, and the sensor-routing dispatch still reads the original values
from it. -/
theorem C9_green_table_mutation (G s w1 w2 : List ℚ) :
    ∃ co2 green',
      calculate_CO2_content_in_kg G (wind_and_solar_forecast s w1 w2) = some (co2, green')
      ∧ getCol green' "solar CO₂" = some (s.map (fun x => x * kg_CO2_per_MWh_solar / 1000))
      ∧ getCol green' "wind_onshore CO₂" = some (w1.map (fun x => x * kg_CO2_per_MWh_wind_onshore))
      ∧ getCol green' "wind_offshore CO₂" = some (w2.map (fun x => x * kg_CO2_per_MWh_wind_offshore))
      ∧ getCol green' "Solar" = some s
      ∧ getCol green' "Wind Onshore" = some w1
      ∧ getCol green' "Wind Offshore" = some w2
      ∧ ∀ intensity,
          get_series_for_sensor "Solar" G green' intensity = some (SeriesValue.qs s)
          ∧ get_series_for_sensor "Wind Onshore" G green' intensity = some (SeriesValue.qs w1)
          ∧ get_series_for_sensor "Wind Offshore" G green' intensity = some (SeriesValue.qs w2) :=
  ⟨_, _, rfl, rfl, rfl, rfl, rfl, rfl, rfl, fun _ => ⟨rfl, rfl, rfl⟩⟩

/-- Claim C10 (confirmed): reading the auth token switches the global
upstream URL before validating the token, so an invocation that aborts on a
missing (or empty) token has still set the URL to the endpoint selected by
the test-server flag - the error path does not leave the global URL
unchanged. -/
theorem C10_url_switched_even_on_missing_token (cfg : EntsoeConfig) (url₀ : String)
    (h : (if cfg.use_test_server then cfg.auth_token_test_server else cfg.auth_token) = none
      ∨ (if cfg.use_test_server then cfg.auth_token_test_server else cfg.auth_token) = some "") :
    (get_auth_token_from_config_and_set_server_url cfg url₀).1 = Except.error ClickAbort.abort
    ∧ (get_auth_token_from_config_and_set_server_url cfg url₀).2
        = (if cfg.use_test_server then ENTSOE_TEST_SERVER_URL else ENTSOE_PRODUCTION_URL) := by
  obtain ⟨uts, tok, tokTest⟩ := cfg
  cases uts <;> rcases h with h | h <;>
    simp_all [get_auth_token_from_config_and_set_server_url]

/-- Claim C10, witness: a production-mode configuration with a missing
token aborts and the URL after the call is the production endpoint,
whatever it was before. -/
theorem C10_witness :
    ((none : Option String) = none ∨ (none : Option String) = some "")
    ∧ ((get_auth_token_from_config_and_set_server_url ⟨false, none, none⟩ "previous").1
          = Except.error ClickAbort.abort
       ∧ (get_auth_token_from_config_and_set_server_url ⟨false, none, none⟩ "previous").2
          = ENTSOE_PRODUCTION_URL) :=
  ⟨Or.inl rfl, C10_url_switched_even_on_missing_token ⟨false, none, none⟩ "previous" (Or.inl rfl)⟩

theorem getElem?_map_val (f : ℚ → ℚ) (l : List ℚ) (i : ℕ) (x : ℚ) (h : l[i]? = some x) :
    (l.map f)[i]? = some (f x) := by
  rw [List.getElem?_map, h]
  rfl

theorem getElem?_zipWith_of {α β γ : Type} (f : α → β → γ) (a : List α) (b : List β) (i : ℕ)
    (x : α) (y : β) (ha : a[i]? = some x) (hb : b[i]? = some y) :
    (List.zipWith f a b)[i]? = some (f x y) := by
  rw [List.getElem?_zipWith', ha, hb]
  rfl

/-- Claim C3 (confirmed): scaling the scheduled series and every renewable
column by the same positive factor k leaves the computed carbon-intensity
series unchanged, elementwise (including the undefined entries where
combined generation is zero). -/
theorem C3_scale_invariance (k : ℚ) (G s w1 w2 : List ℚ) (hk : 0 < k) :
    forecasted_kg_CO2_per_MWh (G.map (fun x => k * x))
        (scaleDF k (wind_and_solar_forecast s w1 w2))
      = forecasted_kg_CO2_per_MWh G (wind_and_solar_forecast s w1 w2) := by
  have hscale : scaleDF k (wind_and_solar_forecast s w1 w2)
      = wind_and_solar_forecast (s.map (fun x => k * x)) (w1.map (fun x => k * x))
          (w2.map (fun x => k * x)) := rfl
  rw [hscale]
  simp only [forecasted_kg_CO2_per_MWh, day_ahead_CO2_intensity]
  rw [calculate_CO2_threeCol, calculate_CO2_threeCol, sumColumns_threeCol, sumColumns_threeCol]
  simp only [map_mul_coeff_comm, map_mul_coeff_div_comm, zipWith_add_map_mul,
    zipWith_pdDiv_map_mul k hk]
  rfl

/-- Claim C3, witness: instantiated at k = 2 and the Scenario A inputs. -/
theorem C3_witness :
    (0 : ℚ) < 2
    ∧ forecasted_kg_CO2_per_MWh ([100, 200].map (fun x => (2 : ℚ) * x))
        (scaleDF 2 (wind_and_solar_forecast [0, 0] [0, 0] [0, 0]))
      = forecasted_kg_CO2_per_MWh [100, 200] (wind_and_solar_forecast [0, 0] [0, 0] [0, 0]) :=
  ⟨by norm_num, C3_scale_invariance 2 [100, 200] [0, 0] [0, 0] [0, 0] (by norm_num)⟩

/-- Claim C6 (confirmed): if the fetched scheduled series or the fetched
renewable table is empty, the run aborts with an error and the belief store
receives zero save calls. -/
theorem C6_empty_upstream_aborts (dryrun : Bool) (scheduled : List (ℤ × ℚ)) (green : GreenDF)
    (h : scheduled = [] ∨ dfEmpty green = true) :
    (import_day_ahead_generation dryrun scheduled green).saves = []
    ∧ ∃ e, (import_day_ahead_generation dryrun scheduled green).result = Except.error e := by
  rcases h with h | h
  · subst h
    exact ⟨rfl, ImportAbort.emptyResult, rfl⟩
  · cases h1 : abort_if_data_empty scheduled.isEmpty with
    | error e =>
      unfold import_day_ahead_generation
      rw [h1]
      exact ⟨rfl, e, rfl⟩
    | ok u =>
      cases h2 : resample_if_needed scheduled 15 with
      | error e =>
        unfold import_day_ahead_generation
        rw [h1, h2]
        exact ⟨rfl, ImportAbort.resolutionError, rfl⟩
      | ok s' =>
        have h3 : abort_if_data_empty (dfEmpty green) = Except.error ImportAbort.emptyResult := by
          rw [h]
          rfl
        unfold import_day_ahead_generation
        rw [h1, h2, h3]
        exact ⟨rfl, ImportAbort.emptyResult, rfl⟩

/-- Claim C6, witness: an empty scheduled series aborts the run with no
saves. -/
theorem C6_witness :
    (([] : List (ℤ × ℚ)) = [] ∨ dfEmpty (wind_and_solar_forecast [0, 0] [0, 0] [0, 0]) = true)
    ∧ ((import_day_ahead_generation false [] (wind_and_solar_forecast [0, 0] [0, 0] [0, 0])).saves = []
       ∧ ∃ e, (import_day_ahead_generation false []
            (wind_and_solar_forecast [0, 0] [0, 0] [0, 0])).result = Except.error e) :=
  ⟨Or.inl rfl,
    C6_empty_upstream_aborts false [] (wind_and_solar_forecast [0, 0] [0, 0] [0, 0]) (Or.inl rfl)⟩

/-- Claim C7, counterexample: a dry run over nonempty fetched data completes
successfully and makes no save call, but the routing stage (and the
packaging/persistence it is interleaved with) does not execute at all - the
`if not dryrun:` in the source guards the whole routing-and-saving loop, so
it is false that every stage except persistence still executes. -/
theorem C7_counterexample :
    (import_day_ahead_generation true sched3
        (wind_and_solar_forecast [0, 0, 0] [0, 0, 0] [0, 0, 0])).result = Except.ok ()
    ∧ (import_day_ahead_generation true sched3
        (wind_and_solar_forecast [0, 0, 0] [0, 0, 0] [0, 0, 0])).saves = []
    ∧ Stage.route ∉ (import_day_ahead_generation true sched3
        (wind_and_solar_forecast [0, 0, 0] [0, 0, 0] [0, 0, 0])).stages := by
  exact ⟨rfl, rfl, by decide⟩

/-- Claim C7, amended: with dry_run set, the belief store receives no call
whatever the fetched data, and the routing, packaging and persistence
stages are all skipped; yet the pipeline does still run through every
earlier stage: whenever the dry run completes successfully, its stage trace
is exactly fetching, validation, normalization, the green fetch and
validation, and the derived-series computation. -/
theorem C7_amended_dry_run (scheduled : List (ℤ × ℚ)) (green : GreenDF) :
    (import_day_ahead_generation true scheduled green).saves = []
    ∧ Stage.route ∉ (import_day_ahead_generation true scheduled green).stages
    ∧ Stage.persist ∉ (import_day_ahead_generation true scheduled green).stages
    ∧ ((import_day_ahead_generation true scheduled green).result = Except.ok () →
        (import_day_ahead_generation true scheduled green).stages
          = [Stage.fetchScheduled, Stage.validateScheduled, Stage.normalize,
             Stage.fetchGreen, Stage.validateGreen, Stage.derive]) := by
  cases h1 : abort_if_data_empty scheduled.isEmpty with
  | error e => simp [import_day_ahead_generation, h1]
  | ok u =>
    cases h2 : resample_if_needed scheduled 15 with
    | error e => simp [import_day_ahead_generation, h1, h2]
    | ok s' =>
      cases h3 : abort_if_data_empty (dfEmpty green) with
      | error e => simp [import_day_ahead_generation, h1, h2, h3]
      | ok u2 =>
        cases h4 : day_ahead_CO2_intensity (s'.map Prod.snd) green with
        | none => simp [import_day_ahead_generation, h1, h2, h3, h4]
        | some pr =>
          obtain ⟨intensity, green'⟩ := pr
          simp [import_day_ahead_generation, h1, h2, h3, h4]

/-- Claim C7, witness: for the concrete nonempty inputs of the
counterexample, the dry run succeeds and its stage trace is exactly the six
stages through the derived-series computation, obtained by applying the
amended theorem and discharging its success hypothesis. -/
theorem C7_witness :
    (import_day_ahead_generation true sched3
        (wind_and_solar_forecast [0, 0, 0] [0, 0, 0] [0, 0, 0])).result = Except.ok ()
    ∧ (import_day_ahead_generation true sched3
        (wind_and_solar_forecast [0, 0, 0] [0, 0, 0] [0, 0, 0])).stages
      = [Stage.fetchScheduled, Stage.validateScheduled, Stage.normalize,
         Stage.fetchGreen, Stage.validateGreen, Stage.derive] :=
  ⟨rfl,
    (C7_amended_dry_run sched3
      (wind_and_solar_forecast [0, 0, 0] [0, 0, 0] [0, 0, 0])).2.2.2 rfl⟩

/-- Claim C8 (confirmed): at every position where combined generation
(scheduled plus the sum of the renewable columns) is zero, the intensity
computation still completes (it is a total function here) and produces the
undefined marker NaN at that position of the result series; generation
values are taken nonnegative as physical MW forecasts. -/
theorem C8_zero_generation_yields_nan (G s w1 w2 : List ℚ) (i : ℕ)
    (hG : ∀ x ∈ G, 0 ≤ x) (hs : ∀ x ∈ s, 0 ≤ x)
    (hw1 : ∀ x ∈ w1, 0 ≤ x) (hw2 : ∀ x ∈ w2, 0 ≤ x)
    (hzero : (List.zipWith (· + ·) G
        (sumColumns (wind_and_solar_forecast s w1 w2)))[i]? = some 0) :
    ∃ out, forecasted_kg_CO2_per_MWh G (wind_and_solar_forecast s w1 w2) = some out
      ∧ out[i]? = some PdValue.nan := by
  rw [sumColumns_threeCol, List.getElem?_zipWith_eq_some] at hzero
  obtain ⟨g, r, hGi, hri, hsum⟩ := hzero
  rw [List.getElem?_zipWith_eq_some] at hri
  obtain ⟨a, r2, hsi, hr2i, hsum2⟩ := hri
  rw [List.getElem?_zipWith_eq_some] at hr2i
  obtain ⟨b, c, hw1i, hw2i, hsum3⟩ := hr2i
  subst hsum3
  subst hsum2
  have hg0 : 0 ≤ g := hG g (List.getElem?_mem hGi)
  have ha0 : 0 ≤ a := hs a (List.getElem?_mem hsi)
  have hb0 : 0 ≤ b := hw1 b (List.getElem?_mem hw1i)
  have hc0 : 0 ≤ c := hw2 c (List.getElem?_mem hw2i)
  have hg : g = 0 := by linarith
  have ha : a = 0 := by linarith
  have hb : b = 0 := by linarith
  have hc : c = 0 := by linarith
  subst hg
  subst ha
  subst hb
  subst hc
  refine ⟨List.zipWith pdDiv
      (List.zipWith (· + ·) (List.zipWith (· + ·) (List.zipWith (· + ·)
        (G.map (fun x => x * grey_CO2_intensity_factor))
        (s.map (fun x => x * kg_CO2_per_MWh_solar / 1000)))
        (w1.map (fun x => x * kg_CO2_per_MWh_wind_onshore)))
        (w2.map (fun x => x * kg_CO2_per_MWh_wind_offshore)))
      (List.zipWith (· + ·) G (List.zipWith (· + ·) s (List.zipWith (· + ·) w1 w2))), rfl, ?_⟩
  have h1 := getElem?_map_val (fun x => x * grey_CO2_intensity_factor) G i 0 hGi
  have h2 := getElem?_map_val (fun x => x * kg_CO2_per_MWh_solar / 1000) s i 0 hsi
  have h3 := getElem?_map_val (fun x => x * kg_CO2_per_MWh_wind_onshore) w1 i 0 hw1i
  have h4 := getElem?_map_val (fun x => x * kg_CO2_per_MWh_wind_offshore) w2 i 0 hw2i
  have h5 := getElem?_zipWith_of (· + ·) _ _ i _ _ h1 h2
  have h6 := getElem?_zipWith_of (· + ·) _ _ i _ _ h5 h3
  have h7 := getElem?_zipWith_of (· + ·) _ _ i _ _ h6 h4
  have h8 := getElem?_zipWith_of (· + ·) _ _ i _ _ hw1i hw2i
  have h9 := getElem?_zipWith_of (· + ·) _ _ i _ _ hsi h8
  have h10 := getElem?_zipWith_of (· + ·) _ _ i _ _ hGi h9
  have h11 := getElem?_zipWith_of pdDiv _ _ i _ _ h7 h10
  rw [h11]
  norm_num [pdDiv]

/-- Claim C8, witness: a single period with zero scheduled and zero
renewable generation yields NaN intensity there. -/
theorem C8_witness :
    ((List.zipWith (· + ·) [(0 : ℚ)]
        (sumColumns (wind_and_solar_forecast [0] [0] [0])))[0]? = some (0 : ℚ))
    ∧ ∃ out, forecasted_kg_CO2_per_MWh [(0 : ℚ)] (wind_and_solar_forecast [0] [0] [0]) = some out
        ∧ out[0]? = some PdValue.nan :=
  ⟨by norm_num [sumColumns_threeCol, List.zipWith],
    C8_zero_generation_yields_nan [0] [0] [0] [0] 0
      (by norm_num) (by norm_num) (by norm_num) (by norm_num)
      (by norm_num [sumColumns_threeCol, List.zipWith])⟩
